import Mathlib

/-!
Verification of the multi-target compilation-and-dispatch engine of the
`highway` library, embedded from `src/hwy/highway.h`.

The embedding models:
 - the target registry (the thirteen targets named by the
   `HWY_STATIC_DISPATCH` chain and the `HWY_CHOOSE_*` macros, lines 70-209);
 - the per-routine dispatch table built by `HWY_EXPORT` (lines 243-272),
   with slot 0 holding the `ChooseAndCall` initializer, one slot per dynamic
   target, and the scalar slot last;
 - the `HWY_CHOOSE_*` macros (a function pointer when the target is in
   `HWY_TARGETS`, `nullptr` otherwise; `HWY_CHOOSE_SCALAR` falls back to the
   static target when scalar is not compiled, lines 130-137);
 - `FunctionCache::ChooseAndCall` (lines 112-118) and
   `HWY_DYNAMIC_DISPATCH` (lines 269-270);
 - the single-target collapse (`HWY_IDE || ((HWY_TARGETS & (HWY_TARGETS-1))
   == 0)`, lines 243-253).

`hwy/targets.h`, `hwy/detect_targets.h` and `hwy/foreach_target.h` are not
part of this repository snapshot; the `ChosenTarget` cache, the bit layout
of the `HWY_TARGETS` mask and the per-target compilation passes are
modelled from the spec where noted.
-/

namespace Highway

/-- The hardware targets enumerated in `src/hwy/highway.h` (the
`HWY_STATIC_DISPATCH` chain, lines 70-96, and the `HWY_CHOOSE_*` macros,
lines 130-209). -/
inductive Target where
  | AVX3_DL | AVX3 | AVX2 | SSE4 | SSSE3 | PPC8
  | SVE2 | SVE | NEON | WASM | WASM2 | RVV | SCALAR
deriving DecidableEq, Repr

/-- Modelled from the spec: the ordered list of possible dynamic targets
used by `HWY_CHOOSE_TARGET_LIST` (defined in `hwy/targets.h`, which is not
under src/), "most-specialized first" per spec section 4.1; consistent with
the weakest-to-strongest order of the `HWY_STATIC_DISPATCH` chain in
`src/hwy/highway.h` lines 70-96. Scalar is not a dynamic target: it gets
the dedicated final slot (line 267). -/
def dynamicTargets : List Target :=
  [.AVX3_DL, .AVX3, .AVX2, .SSE4, .SSSE3, .PPC8,
   .SVE2, .SVE, .NEON, .WASM, .WASM2, .RVV]

/-- The full priority order: dynamic targets, most specialized first,
with the scalar baseline last (spec section 3: "a designated Scalar
baseline is always last"). -/
def priorityOrder : List Target := dynamicTargets ++ [.SCALAR]

/-- Position of a target in the priority order (0 = most specialized). -/
def posOf (t : Target) : Nat := priorityOrder.indexOf t

/-- `A` outranks `B` when `A` comes strictly earlier in the priority
order. -/
def outranks (a b : Target) : Prop := posOf a < posOf b

instance (a b : Target) : Decidable (outranks a b) := by
  unfold outranks; infer_instance

/-- Modelled from the spec: each target occupies one distinct bit of the
`HWY_TARGETS` bitmask (spec section 3: "TargetSet — a bitmask over
TargetId"; the concrete bit values live in `hwy/detect_targets.h`, not
under src/). Only distinctness of the bits matters for the code in
`src/hwy/highway.h`. -/
def Target.bit : Target → Nat
  | .AVX3_DL => 0
  | .AVX3 => 1
  | .AVX2 => 2
  | .SSE4 => 3
  | .SSSE3 => 4
  | .PPC8 => 5
  | .SVE2 => 6
  | .SVE => 7
  | .NEON => 8
  | .WASM => 9
  | .WASM2 => 10
  | .RVV => 11
  | .SCALAR => 12

/-- A build configuration: which targets are in `HWY_TARGETS` (the
compiled set) and which target is `HWY_STATIC_TARGET` (the baseline the
binary may always assume), plus the `HWY_IDE` flag tested on line 243. -/
structure Build where
  compiled : Target → Bool
  staticTarget : Target
  ide : Bool

/-- The compiled targets, in priority order. -/
def Build.compiledList (b : Build) : List Target :=
  priorityOrder.filter b.compiled

/-- The `HWY_TARGETS` bitmask of the build: one bit per compiled target. -/
def Build.targetsMask (b : Build) : Nat :=
  b.compiledList.foldr (fun t acc => acc + 2 ^ t.bit) 0

/-- The condition of line 243 of `src/hwy/highway.h`:
`HWY_IDE || ((HWY_TARGETS & (HWY_TARGETS - 1)) == 0)` selects the
simplified single-target export/dispatch. -/
def Build.singleTarget (b : Build) : Bool :=
  b.ide || (b.targetsMask &&& (b.targetsMask - 1) == 0)

/-- One slot of a dispatch table built by `HWY_EXPORT`
(`src/hwy/highway.h` lines 259-268): either the `ChooseAndCall`
initializer (slot 0), a pointer to one per-target implementation of the
routine, or `nullptr`. -/
inductive Slot (α β : Type) where
  | init
  | fn (f : α → β)
  | null

/-- `HWY_CHOOSE_<TARGET>(FUNC_NAME)` for a dynamic target
(`src/hwy/highway.h` lines 139-209): the address of the per-target
implementation `N_<TARGET>::FUNC_NAME` when the target is in
`HWY_TARGETS`, `nullptr` otherwise. `impl t` stands for
`N_<t>::FUNC_NAME`. -/
def chooseDynamic {α β : Type} (b : Build) (impl : Target → α → β)
    (t : Target) : Slot α β :=
  if b.compiled t then .fn (impl t) else .null

/-- `HWY_CHOOSE_SCALAR(FUNC_NAME)` (`src/hwy/highway.h` lines 130-137):
`&N_SCALAR::FUNC_NAME` when scalar is compiled; otherwise the baseline
implementation `&HWY_STATIC_DISPATCH(FUNC_NAME)` ("when scalar is not
present ... we fall back to the baseline"). -/
def chooseScalar {α β : Type} (b : Build) (impl : Target → α → β) :
    Slot α β :=
  if b.compiled .SCALAR then .fn (impl .SCALAR)
  else .fn (impl b.staticTarget)

/-- The multi-target dispatch table of `HWY_EXPORT` (`src/hwy/highway.h`
lines 259-268): the `ChooseAndCall` initializer first, then
`HWY_CHOOSE_TARGET_LIST` (one slot per possible dynamic target in
priority order), then `HWY_CHOOSE_SCALAR` last. -/
def dispatchTableMulti {α β : Type} (b : Build) (impl : Target → α → β) :
    List (Slot α β) :=
  .init :: (dynamicTargets.map (chooseDynamic b impl) ++ [chooseScalar b impl])

/-- `HWY_EXPORT` (`src/hwy/highway.h` lines 243-268): a one-element table
holding `&HWY_STATIC_DISPATCH(FUNC_NAME)` in the IDE / single-target case
(lines 249-252), the full table otherwise. -/
def exportTable {α β : Type} (b : Build) (impl : Target → α → β) :
    List (Slot α β) :=
  if b.singleTarget then [.fn (impl b.staticTarget)]
  else dispatchTableMulti b impl

/-- Modelled from the spec: the state of the process-wide `ChosenTarget`
cache (declared in `hwy/targets.h`, not under src/); spec section 3:
"ChosenTarget — process-wide singleton: `{state: uninitialized|ready,
selectedIndex}`". -/
inductive CacheState where
  | uninitialized
  | ready (selectedIndex : Nat)
deriving DecidableEq, Repr

/-- Modelled from the spec: `ChosenTarget::GetIndex` (declared in
`hwy/targets.h`, not under src/). While the cache is uninitialized the
index is the initializer slot's index 0 (spec section 4.5: "if the cache
is not yet ready, the index used is the initializer slot's index (0)");
once ready it is the frozen `selectedIndex`. -/
def getIndex : CacheState → Nat
  | .uninitialized => 0
  | .ready i => i

/-- `Usable = DetectSupportedTargets() ∩ CompiledSet`, in priority order
(spec section 4.3). `supported` is the detector's capability report. -/
def usable (b : Build) (supported : Target → Bool) : List Target :=
  priorityOrder.filter (fun t => supported t && b.compiled t)

/-- Modelled from the spec: the resolution algorithm of
`ChosenTarget::Update` (defined in `hwy/targets.cc`, not under src/);
spec section 4.3: "`ChosenId` = highest-priority member of `Usable`, or
`BaselineTarget` if `Usable` is empty". -/
def chosenId (b : Build) (supported : Target → Bool) : Target :=
  match usable b supported with
  | [] => b.staticTarget
  | t :: _ => t

/-- The table index of the chosen target: its slot in the dispatch table,
i.e. its position in the priority order shifted past the reserved
initializer slot 0. -/
def selectedIndex (b : Build) (supported : Target → Bool) : Nat :=
  posOf (chosenId b supported) + 1

/-- Modelled from the spec: `ChosenTarget::Update` (defined in
`hwy/targets.cc`, not under src/): resolve the chosen target from the
detector report and the compiled set and publish the ready state; a pure
function of host and build, so redundant runs store the same value (spec
section 4.3). -/
def update (b : Build) (supported : Target → Bool) (_ : CacheState) :
    CacheState :=
  .ready (selectedIndex b supported)

/-- Calling through one table slot: a real variant returns its value, a
null pointer is a fatal error (modelled as `none`: the process terminates
and no value is returned, spec section 7 `UnreachableSlotError`). The
initializer slot is handled by `dynDispatch`. -/
def slotApply {α β : Type} : Slot α β → α → Option β
  | .fn f, a => some (f a)
  | _, _ => none

/-- `HWY_DYNAMIC_DISPATCH(FUNC_NAME)(args)` in the multi-target case
(`src/hwy/highway.h` lines 269-270):
`(*(table[hwy::GetChosenTarget().GetIndex()]))(args)`. When the indexed
slot is the slot-0 initializer, this is
`FunctionCache::ChooseAndCall<table>` (lines 112-118): it updates the
global cache and calls `table[chosen_target.GetIndex()]` with the same
arguments. Returns the call's result (`none` = fatal null-slot call) and
the cache state after the call. -/
def dynDispatchMulti {α β : Type} (b : Build) (supported : Target → Bool)
    (impl : Target → α → β) (s : CacheState) (args : α) :
    Option β × CacheState :=
  match (dispatchTableMulti b impl).getD (getIndex s) .null with
  | .fn f => (some (f args), s)
  | .null => (none, s)
  | .init =>
      let s' := update b supported s
      (slotApply ((dispatchTableMulti b impl).getD (getIndex s') .null) args,
       s')

/-- `HWY_DYNAMIC_DISPATCH` (`src/hwy/highway.h` lines 253 and 269-270):
in the IDE / single-target case it is `HWY_STATIC_DISPATCH(FUNC_NAME)` —
a direct call of the static target's implementation, touching neither the
detector nor the cache; otherwise the table dispatch above. -/
def dynDispatch {α β : Type} (b : Build) (supported : Target → Bool)
    (impl : Target → α → β) (s : CacheState) (args : α) :
    Option β × CacheState :=
  if b.singleTarget then (some (impl b.staticTarget args), s)
  else dynDispatchMulti b supported impl s args

/-- Modelled from the spec: the compilation passes of `foreach_target.h`
(not under src/): a translation unit that defines a dispatched routine is
processed once per compiled target (spec section 4.4: "it is instantiated
once per TargetId in CompiledSet"), in priority order. -/
def passes (b : Build) : List Target := b.compiledList

/-- Modelled from the spec: the value of `HWY_ONCE` in the pass for
target `t` (set by `foreach_target.h`, not under src/): true exactly for
the pass of the static (most-fallback) target, per the comment on
`src/hwy/highway.h` lines 59-62 ("generating anything but the static
target ... used to prevent redefinitions of HWY_EXPORT") and spec section
4.4 ("exactly one of these instantiation passes - conventionally the pass
representing the most-fallback variant - is ... authoritative"). -/
def hwyOnce (b : Build) (t : Target) : Bool := t == b.staticTarget

/-- What compiling one translation unit that defines routine `r` and
exports it emits: one implementation symbol `(t, r)` (standing for
`N_<t>::r`) per pass, and one dispatch table per pass in which `HWY_ONCE`
holds (`HWY_EXPORT` appears under `#if HWY_ONCE`, as in
`src/hwy/examples/skeleton.cc` lines 91-97). -/
structure Emission where
  impls : List (Target × String)
  tables : List String
deriving DecidableEq, Repr

/-- Compile the translation unit of routine `r` for build `b`. -/
def compileTU (b : Build) (r : String) : Emission :=
  { impls := (passes b).map (fun t => (t, r)),
    tables := ((passes b).filter (hwyOnce b)).map (fun _ => r) }

/-- The state after one `HWY_DYNAMIC_DISPATCH` call (multi-target case). -/
def stepState {α β : Type} (b : Build) (supported : Target → Bool)
    (impl : Target → α → β) (args : α) (s : CacheState) : CacheState :=
  (dynDispatchMulti b supported impl s args).2

/-! ### Basic facts about the registry -/

theorem mem_priorityOrder (t : Target) : t ∈ priorityOrder := by
  cases t <;> decide

theorem priorityOrder_nodup : priorityOrder.Nodup := by decide

theorem posOf_lt (t : Target) : posOf t < 13 := by
  cases t <;> decide

theorem posOf_inj {a b : Target} (h : posOf a = posOf b) : a = b := by
  cases a <;> cases b <;> first | rfl | (exfalso; revert h; decide)

/-- The head of a filtered list comes no later in the base list than any
member of the filtered list. -/
theorem indexOf_head_filter_le {l : List Target} {p : Target → Bool}
    {t : Target} {ts : List Target} (h : l.filter p = t :: ts) {u : Target}
    (hu : u ∈ l.filter p) : l.indexOf t ≤ l.indexOf u := by
  induction l with
  | nil => simp at h
  | cons x xs ih =>
      by_cases hx : p x
      · simp [List.filter_cons, hx] at h
        rcases h with ⟨rfl, rfl⟩
        simp [List.indexOf_cons_self]
      · have hxf : (x :: xs).filter p = xs.filter p := by
          simp [List.filter_cons, hx]
        rw [hxf] at h hu
        have ht : t ∈ xs.filter p := by rw [h]; exact List.mem_cons_self t ts
        have htp : p t = true := (List.mem_filter.mp ht).2
        have hup : p u = true := (List.mem_filter.mp hu).2
        have htx : t ≠ x := fun he => by rw [he] at htp; simp [hx] at htp
        have hux : u ≠ x := fun he => by rw [he] at hup; simp [hx] at hup
        have hbt : (x == t) = false := beq_eq_false_iff_ne.mpr (Ne.symm htx)
        have hbu : (x == u) = false := beq_eq_false_iff_ne.mpr (Ne.symm hux)
        have e1 : (x :: xs).indexOf t = xs.indexOf t + 1 := by
          simp [List.indexOf, List.findIdx_cons, hbt]
        have e2 : (x :: xs).indexOf u = xs.indexOf u + 1 := by
          simp [List.indexOf, List.findIdx_cons, hbu]
        rw [e1, e2]
        exact Nat.succ_le_succ (ih h hu)

/-! ### Table indexing facts -/

theorem table_length {α β : Type} (b : Build) (impl : Target → α → β) :
    (dispatchTableMulti b impl).length = dynamicTargets.length + 2 := by
  simp [dispatchTableMulti]

theorem table_getD_zero {α β : Type} (b : Build) (impl : Target → α → β) :
    (dispatchTableMulti b impl).getD 0 .null = .init := rfl

/-- The slot of target `t` sits at index `posOf t + 1` of the table. -/
theorem table_getD_posOf {α β : Type} (b : Build) (impl : Target → α → β)
    (t : Target) :
    (dispatchTableMulti b impl).getD (posOf t + 1) .null =
      if t = .SCALAR then chooseScalar b impl else chooseDynamic b impl t := by
  cases t <;> rfl

/-- No slot other than slot 0 is the initializer. -/
theorem table_getD_succ_ne_init {α β : Type} (b : Build)
    (impl : Target → α → β) (i : Nat) :
    (dispatchTableMulti b impl).getD (i + 1) .null ≠ .init := by
  have hstep : (dispatchTableMulti b impl).getD (i + 1) .null =
      (dynamicTargets.map (chooseDynamic b impl) ++
        [chooseScalar b impl]).getD i .null := by
    simp [dispatchTableMulti]
  rw [hstep]
  have key : ∀ s ∈ dynamicTargets.map (chooseDynamic b impl) ++
      [chooseScalar b impl], s ≠ (Slot.init : Slot α β) := by
    intro s hs
    rcases List.mem_append.mp hs with hm | hm
    · rcases List.mem_map.mp hm with ⟨t, _, he⟩
      rw [← he]
      unfold chooseDynamic
      split <;> simp
    · rw [List.mem_singleton.mp hm]
      unfold chooseScalar
      split <;> simp
  by_cases hi : i < (dynamicTargets.map (chooseDynamic b impl) ++
      [chooseScalar b impl]).length
  · rw [List.getD_eq_getElem _ .null hi]
    exact key _ (List.getElem_mem hi)
  · rw [List.getD_eq_default _ .null (Nat.le_of_not_lt hi)]
    simp

/-! ### Chosen-target facts -/

theorem mem_usable_iff (b : Build) (sup : Target → Bool) (t : Target) :
    t ∈ usable b sup ↔ (sup t = true ∧ b.compiled t = true) := by
  unfold usable
  rw [List.mem_filter]
  simp [mem_priorityOrder]

theorem chosenId_head (b : Build) (sup : Target → Bool) (t : Target)
    (ts : List Target) (h : usable b sup = t :: ts) :
    chosenId b sup = t := by
  unfold chosenId
  rw [h]

theorem chosenId_empty (b : Build) (sup : Target → Bool)
    (h : usable b sup = []) : chosenId b sup = b.staticTarget := by
  unfold chosenId
  rw [h]

theorem chosenId_mem (b : Build) (sup : Target → Bool)
    (h : usable b sup ≠ []) : chosenId b sup ∈ usable b sup := by
  cases hu : usable b sup with
  | nil => exact absurd hu h
  | cons t ts =>
      rw [chosenId_head b sup t ts hu]
      exact List.mem_cons_self t ts

/-- The chosen target has minimal position (highest priority) among the
usable targets. -/
theorem chosenId_min (b : Build) (sup : Target → Bool) (u : Target)
    (hu : u ∈ usable b sup) : posOf (chosenId b sup) ≤ posOf u := by
  cases h : usable b sup with
  | nil => rw [h] at hu; simp at hu
  | cons t ts =>
      rw [chosenId_head b sup t ts h]
      rw [h] at hu
      rw [← h] at hu
      exact indexOf_head_filter_le h hu

theorem one_le_selectedIndex (b : Build) (sup : Target → Bool) :
    1 ≤ selectedIndex b sup := Nat.le_add_left 1 _

/-! ### Dispatch behavior -/

/-- A cold-cache dispatch goes through slot 0: it resolves the cache and
then calls the slot at the resolved index with the same arguments. -/
theorem dynDispatchMulti_cold {α β : Type} (b : Build)
    (sup : Target → Bool) (impl : Target → α → β) (args : α) :
    dynDispatchMulti b sup impl .uninitialized args =
      (slotApply
        ((dispatchTableMulti b impl).getD (selectedIndex b sup) .null) args,
       .ready (selectedIndex b sup)) := rfl

/-- A dispatch with a ready cache whose index is not slot 0 is a direct
indexed call that leaves the cache unchanged. -/
theorem dynDispatchMulti_ready {α β : Type} (b : Build)
    (sup : Target → Bool) (impl : Target → α → β) (i : Nat) (args : α)
    (h : (dispatchTableMulti b impl).getD i .null ≠ .init) :
    dynDispatchMulti b sup impl (.ready i) args =
      (slotApply ((dispatchTableMulti b impl).getD i .null) args,
       .ready i) := by
  cases hs : (dispatchTableMulti b impl).getD i .null with
  | init => exact absurd hs h
  | fn f =>
      unfold dynDispatchMulti
      simp only [getIndex]
      rw [hs]
      simp [slotApply]
  | null =>
      unfold dynDispatchMulti
      simp only [getIndex]
      rw [hs]
      simp [slotApply]

/-! ### Single-target and compilation-pass facts -/

theorem singleton_mask (b : Build) (t : Target) (h : b.compiledList = [t]) :
    b.targetsMask = 2 ^ t.bit := by
  unfold Build.targetsMask
  rw [h]
  simp [List.foldr]

theorem pow2_test (t : Target) :
    ((2 ^ t.bit : Nat) &&& (2 ^ t.bit - 1) == 0) = true := by
  cases t <;> rfl

/-- A build whose compiled set is a singleton takes the simplified
single-target branch of line 243. -/
theorem singleton_singleTarget (b : Build) (t : Target)
    (h : b.compiledList = [t]) : b.singleTarget = true := by
  unfold Build.singleTarget
  rw [singleton_mask b t h, pow2_test t]
  simp

theorem static_mem_compiledList (b : Build)
    (h : b.compiled b.staticTarget = true) :
    b.staticTarget ∈ b.compiledList :=
  List.mem_filter.mpr ⟨mem_priorityOrder _, h⟩

theorem static_eq_of_singleton (b : Build) (t : Target)
    (h : b.compiledList = [t]) (hs : b.compiled b.staticTarget = true) :
    b.staticTarget = t := by
  have hm := static_mem_compiledList b hs
  rw [h] at hm
  exact List.mem_singleton.mp hm

theorem compiledList_nodup (b : Build) : b.compiledList.Nodup :=
  priorityOrder_nodup.filter _

/-- In a duplicate-free list, filtering for one member keeps exactly that
member. -/
theorem filter_beq_of_nodup {l : List Target} (hl : l.Nodup) {a : Target}
    (ha : a ∈ l) : l.filter (fun t => t == a) = [a] := by
  induction l with
  | nil => simp at ha
  | cons x xs ih =>
      rcases List.nodup_cons.mp hl with ⟨hx, hxs⟩
      by_cases hax : a = x
      · subst hax
        have hnone : xs.filter (fun t => t == a) = [] := by
          rw [List.filter_eq_nil_iff]
          intro c hc hbc
          exact hx (beq_iff_eq.mp hbc ▸ hc)
        simp [List.filter_cons, hnone]
      · have hmem : a ∈ xs := by
          rcases List.mem_cons.mp ha with h | h
          · exact absurd h hax
          · exact h
        have hbx : (x == a) = false := beq_eq_false_iff_ne.mpr (Ne.symm hax)
        simp [List.filter_cons, hbx, ih hxs hmem]

/-! ### Concrete builds used as witnesses and counterexamples -/

/-- A typical x86 multi-target build: AVX3_DL, AVX3, AVX2 and SSE4 are
compiled, SSE4 is the baseline (`HWY_STATIC_TARGET`), and scalar is not
compiled. -/
def bX : Build :=
  { compiled := fun t =>
      decide (t = .AVX3_DL ∨ t = .AVX3 ∨ t = .AVX2 ∨ t = .SSE4),
    staticTarget := .SSE4,
    ide := false }

/-- A capability report for a CPU with AVX2 but no AVX-512. -/
def supX : Target → Bool := fun t =>
  decide (t = .AVX2 ∨ t = .SSE4 ∨ t = .SSSE3 ∨ t = .SCALAR)

/-- A capability report claiming every instruction set. -/
def supAll : Target → Bool := fun _ => true

/-- A capability report supporting nothing — the detector reports a set
excluding even the baseline (spec section 7 `DetectionAmbiguity`), so the
usable intersection is empty. -/
def supNone : Target → Bool := fun _ => false

/-- A scalar-only build: `CompiledSet = {Scalar}`. -/
def bScalar : Build :=
  { compiled := fun t => decide (t = .SCALAR),
    staticTarget := .SCALAR,
    ide := false }

/-- A trivial concrete routine used to instantiate dispatch tables in
witnesses. -/
def implNat : Target → Nat → Nat := fun _ n => n + 1

/-! ### Claim C1 — target selection -/

/-- The target-selection property as amended: the chosen target is the
head (highest-priority member) of `Usable`, or the baseline when `Usable`
is empty — both branches unconditional in `A` and `B` — and, whenever `A`
and `B` are both compiled and supported with `A` outranking `B`, the
chosen target is never `B`: it equals `A` or outranks `A`. -/
def SelectionProp (b : Build) (sup : Target → Bool) (A B : Target) : Prop :=
  (usable b sup = [] → chosenId b sup = b.staticTarget) ∧
  (∀ t ts, usable b sup = t :: ts → chosenId b sup = t) ∧
  (∀ u ∈ usable b sup, posOf (chosenId b sup) ≤ posOf u) ∧
  (b.compiled A = true → sup A = true → b.compiled B = true →
    sup B = true → outranks A B →
    chosenId b sup ≠ B ∧
    (chosenId b sup = A ∨ outranks (chosenId b sup) A))

/-- C1 (counterexample): the claim "the chosen target is A" fails as
stated. In the build compiling AVX3_DL, AVX3 and SSE4, with every target
supported, A = AVX3 and B = SSE4 are both compiled and supported and A
outranks B, yet the chosen target is AVX3_DL, not A. -/
theorem c1_counterexample :
    bX.compiled Target.AVX3 = true ∧ bX.compiled Target.SSE4 = true ∧
    supAll Target.AVX3 = true ∧ supAll Target.SSE4 = true ∧
    outranks Target.AVX3 Target.SSE4 ∧
    chosenId bX supAll ≠ Target.AVX3 := by decide

/-- C1 (amended): on resolution the chosen target is the highest-priority
member of the intersection of the detector's supported set with the
compiled set, or the baseline if the intersection is empty; and for every
pair A, B of supported compiled targets with A outranking B, the chosen
target is never B — it is A itself or a target outranking A. The
empty-intersection and nonempty-intersection branches hold for every
build and detector report, unconditionally in A and B. -/
theorem c1_target_selection (b : Build) (sup : Target → Bool)
    (A B : Target) : SelectionProp b sup A B := by
  refine ⟨chosenId_empty b sup, fun t ts h => chosenId_head b sup t ts h,
    fun u hu => chosenId_min b sup u hu, ?_⟩
  intro hAc hAs _hBc _hBs hAB
  have hAu : A ∈ usable b sup := (mem_usable_iff b sup A).mpr ⟨hAs, hAc⟩
  have hmin := chosenId_min b sup A hAu
  constructor
  · intro he
    rw [he] at hmin
    unfold outranks at hAB
    exact absurd hAB (Nat.not_lt.mpr hmin)
  · rcases Nat.lt_or_ge (posOf (chosenId b sup)) (posOf A) with hlt | hge
    · exact Or.inr hlt
    · exact Or.inl (posOf_inj (Nat.le_antisymm hmin hge))

/-- C1 witness: both branches exercised concretely. With the
nothing-supported detector report the usable intersection is empty and
the chosen target is the baseline SSE4; with the AVX2-class report the
selection property holds at A = AVX2, B = SSE4 (the chosen target is
AVX2 itself there). -/
theorem c1_target_selection_witness :
    (usable bX supNone = [] ∧ chosenId bX supNone = bX.staticTarget) ∧
    SelectionProp bX supX Target.AVX2 Target.SSE4 :=
  ⟨⟨by decide,
    (c1_target_selection bX supNone Target.AVX2 Target.SSE4).1 (by decide)⟩,
   c1_target_selection bX supX Target.AVX2 Target.SSE4⟩

/-! ### Claim C2 — table layout invariant -/

/-- The layout of the exported table: one slot more than the dynamic
targets plus the scalar terminator; slot 0 is the reserved initializer;
slot `i + 1` is the `HWY_CHOOSE_*` slot of the i-th dynamic target in
priority order; the scalar slot is the last entry. -/
def TableLayoutProp {α β : Type} (b : Build) (impl : Target → α → β) :
    Prop :=
  (exportTable b impl).length = dynamicTargets.length + 2 ∧
  (exportTable b impl).getD 0 .null = .init ∧
  (∀ i, i < dynamicTargets.length →
    (exportTable b impl).getD (i + 1) .null =
      chooseDynamic b impl (dynamicTargets.getD i .SCALAR)) ∧
  (exportTable b impl).getD (dynamicTargets.length + 1) .null =
    chooseScalar b impl

/-- C2: in a multi-target build, the `HWY_EXPORT` table is the constant
array with slot 0 the reserved initializer (not a real variant), one slot
per possible dynamic target in priority order, and the scalar slot as the
last entry. (The table is a single immutable `static const` array in the
source; in this embedding it is a pure constant of the build, so
built-once-never-mutated holds by construction.) -/
theorem c2_table_layout {α β : Type} (b : Build) (impl : Target → α → β)
    (h : b.singleTarget = false) : TableLayoutProp b impl := by
  unfold TableLayoutProp exportTable
  rw [h]
  simp only [Bool.false_eq_true, if_false]
  refine ⟨by simp [dispatchTableMulti], rfl, ?_, ?_⟩
  · intro i hi
    have hi' : i < 12 := by simpa [dynamicTargets] using hi
    interval_cases i <;> rfl
  · rfl

/-- C2 witness: the table layout at the concrete x86 build. -/
theorem c2_table_layout_witness :
    bX.singleTarget = false ∧ TableLayoutProp bX implNat :=
  ⟨by decide, c2_table_layout bX implNat (by decide)⟩

/-! ### Claim C3 — first-call protocol -/

/-- The first-call protocol: a cold cache indexes slot 0; slot 0 is the
initializer; the first call resolves the cache and forwards the unchanged
arguments to the slot the resolved cache selects, returning that slot's
value; every later call (cache ready at `selectedIndex`) is a direct
indexed call through the same slot that leaves the cache untouched. -/
def FirstCallProp {α β : Type} (b : Build) (sup : Target → Bool)
    (impl : Target → α → β) (args : α) : Prop :=
  getIndex .uninitialized = 0 ∧
  (dispatchTableMulti b impl).getD 0 .null = .init ∧
  dynDispatchMulti b sup impl .uninitialized args =
    (slotApply
      ((dispatchTableMulti b impl).getD (selectedIndex b sup) .null) args,
     .ready (selectedIndex b sup)) ∧
  dynDispatchMulti b sup impl (.ready (selectedIndex b sup)) args =
    (slotApply
      ((dispatchTableMulti b impl).getD (selectedIndex b sup) .null) args,
     .ready (selectedIndex b sup))

/-- C3: the first dynamic-dispatch invocation goes through table slot 0,
whose `ChooseAndCall` entry resolves the chosen-target cache and forwards
the call, with unchanged arguments and return value, to the slot selected
by the now-resolved cache; every subsequent call bypasses the initializer
and is a direct indexed call through `table[selectedIndex]`. -/
theorem c3_first_call {α β : Type} (b : Build) (sup : Target → Bool)
    (impl : Target → α → β) (args : α) : FirstCallProp b sup impl args := by
  refine ⟨rfl, rfl, dynDispatchMulti_cold b sup impl args, ?_⟩
  have hne : (dispatchTableMulti b impl).getD (selectedIndex b sup)
      .null ≠ .init := by
    have : selectedIndex b sup = posOf (chosenId b sup) + 1 := rfl
    rw [this]
    exact table_getD_succ_ne_init b impl _
  exact dynDispatchMulti_ready b sup impl _ args hne

/-! ### Claim C4 — null-slot handling -/

/-- C4: a possible dynamic target that is not compiled gets an explicit
null slot, and a dispatch whose selected index points at a null slot
terminates the process (returns no value, modelled `none`) instead of
falling back to another variant; the cache is not redirected. -/
theorem c4_null_slots {α β : Type} (b : Build) (sup : Target → Bool)
    (impl : Target → α → β) (t : Target) (i : Nat) (args : α)
    (ht : t ∈ dynamicTargets) (hc : b.compiled t = false)
    (hnull : (dispatchTableMulti b impl).getD i .null = .null) :
    (dispatchTableMulti b impl).getD (posOf t + 1) .null = .null ∧
    dynDispatchMulti b sup impl (.ready i) args = (none, .ready i) := by
  constructor
  · have hts : t ≠ .SCALAR := by
      intro he
      rw [he] at ht
      exact absurd ht (by decide)
    rw [table_getD_posOf b impl t, if_neg hts]
    unfold chooseDynamic
    rw [hc]
    simp
  · have hne : (dispatchTableMulti b impl).getD i .null ≠ .init := by
      rw [hnull]
      simp
    rw [dynDispatchMulti_ready b sup impl i args hne, hnull]
    rfl

/-- C4 witness: in the x86 build NEON is a possible dynamic target that
is not compiled; its slot (index 9) is null and dispatching with the
cache pointing there is fatal. -/
theorem c4_null_slots_witness :
    (Target.NEON ∈ dynamicTargets ∧ bX.compiled Target.NEON = false ∧
     (dispatchTableMulti bX implNat).getD 9 .null = .null) ∧
    ((dispatchTableMulti bX implNat).getD (posOf Target.NEON + 1) .null
        = .null ∧
     dynDispatchMulti bX supX implNat (.ready 9) 5 = (none, .ready 9)) :=
  ⟨⟨by decide, by decide, rfl⟩,
   c4_null_slots bX supX implNat Target.NEON 9 5 (by decide) (by decide)
     rfl⟩

/-! ### Claim C5 — baseline membership -/

/-- C5 (counterexample): Scalar is not compiled in every build. The x86
build `bX` is a legitimate configuration (its baseline is compiled, it is
multi-target) whose compiled set excludes Scalar — exactly the situation
lines 133-136 of `src/hwy/highway.h` provide for ("when scalar is not
present ... we fall back to the baseline"). -/
theorem c5_counterexample :
    bX.compiled bX.staticTarget = true ∧ bX.singleTarget = false ∧
    bX.compiled Target.SCALAR = false := by decide

/-- C5 (amended): the Scalar target is the lowest-priority, last entry of
the priority order in every build, and the baseline (static) target is
always compiled; Scalar itself, however, need not be compiled — when it
is not, the scalar table slot holds the baseline implementation rather
than a scalar one. -/
theorem c5_baseline {α β : Type} (b : Build) (impl : Target → α → β)
    (h : b.compiled b.staticTarget = true) :
    priorityOrder.getLast? = some Target.SCALAR ∧
    (∀ t : Target, t = .SCALAR ∨ outranks t .SCALAR) ∧
    b.staticTarget ∈ b.compiledList ∧
    (b.compiled .SCALAR = true → chooseScalar b impl = .fn (impl .SCALAR)) ∧
    (b.compiled .SCALAR = false →
      chooseScalar b impl = .fn (impl b.staticTarget)) := by
  refine ⟨by decide, by intro t; cases t <;> simp [outranks, posOf] <;> decide,
    static_mem_compiledList b h, ?_, ?_⟩
  · intro hs
    unfold chooseScalar
    rw [hs]
    simp
  · intro hs
    unfold chooseScalar
    rw [hs]
    simp

/-- C5 witness: the amended baseline property at the x86 build (whose
baseline SSE4 is compiled). -/
theorem c5_baseline_witness :
    bX.compiled bX.staticTarget = true ∧
    (priorityOrder.getLast? = some Target.SCALAR ∧
     (∀ t : Target, t = .SCALAR ∨ outranks t .SCALAR) ∧
     bX.staticTarget ∈ bX.compiledList ∧
     (bX.compiled .SCALAR = true →
       chooseScalar bX implNat = .fn (implNat .SCALAR)) ∧
     (bX.compiled .SCALAR = false →
       chooseScalar bX implNat = .fn (implNat bX.staticTarget))) :=
  ⟨by decide, c5_baseline bX implNat (by decide)⟩

/-! ### Claim C6 — single-variant collapse -/

/-- The collapse of dynamic to static dispatch: a one-slot table and a
dispatch that is exactly a call of the single compiled implementation,
for every detector report and every cache state, leaving the cache
untouched. -/
def SingleCollapseProp {α β : Type} (b : Build) (t : Target)
    (impl : Target → α → β) : Prop :=
  exportTable b impl = [.fn (impl t)] ∧
  ∀ (sup : Target → Bool) (s : CacheState) (args : α),
    dynDispatch b sup impl s args = (some (impl t args), s)

/-- C6: when the compiled set has exactly one member, `HWY_EXPORT` emits
a one-slot table and `HWY_DYNAMIC_DISPATCH` is exactly a call of the
single compiled implementation: its result is the same for every
detector report (zero detector influence) and the cache state is neither
read in a way that matters nor written. -/
theorem c6_single_collapse {α β : Type} (b : Build) (t : Target)
    (impl : Target → α → β) (h1 : b.compiledList = [t])
    (h2 : b.compiled b.staticTarget = true) : SingleCollapseProp b t impl := by
  have hst : b.staticTarget = t := static_eq_of_singleton b t h1 h2
  have hsingle : b.singleTarget = true := singleton_singleTarget b t h1
  constructor
  · unfold exportTable
    rw [hsingle, hst]
    simp
  · intro sup s args
    unfold dynDispatch
    rw [hsingle, hst]
    simp

/-- C6 witness: the scalar-only build `CompiledSet = {Scalar}` collapses
to a direct scalar call. -/
theorem c6_single_collapse_witness :
    (bScalar.compiledList = [Target.SCALAR] ∧
     bScalar.compiled bScalar.staticTarget = true) ∧
    SingleCollapseProp bScalar Target.SCALAR implNat :=
  ⟨by decide,
   c6_single_collapse bScalar Target.SCALAR implNat (by decide) (by decide)⟩

/-! ### Claim C7 — frozen-choice idempotence -/

/-- C7: cache resolution always publishes the same frozen index (it is a
pure function of host and build), re-resolving a ready cache does not
change it, and after the first dispatch call the cache state is
`ready (selectedIndex)` forever: every post-warm-up call selects the same
target slot as the first post-warm-up call. -/
theorem c7_frozen_choice {α β : Type} (b : Build) (sup : Target → Bool)
    (impl : Target → α → β) (args : α) :
    (∀ s s', update b sup s = update b sup s') ∧
    update b sup (.ready (selectedIndex b sup)) =
      .ready (selectedIndex b sup) ∧
    (∀ n, (stepState b sup impl args)^[n + 1] .uninitialized =
      .ready (selectedIndex b sup)) := by
  have hne : (dispatchTableMulti b impl).getD (selectedIndex b sup)
      .null ≠ .init := by
    have : selectedIndex b sup = posOf (chosenId b sup) + 1 := rfl
    rw [this]
    exact table_getD_succ_ne_init b impl _
  have hstep0 : stepState b sup impl args .uninitialized =
      .ready (selectedIndex b sup) := by
    unfold stepState
    rw [dynDispatchMulti_cold b sup impl args]
  have hstep1 : stepState b sup impl args (.ready (selectedIndex b sup)) =
      .ready (selectedIndex b sup) := by
    unfold stepState
    rw [dynDispatchMulti_ready b sup impl _ args hne]
  refine ⟨fun s s' => rfl, rfl, ?_⟩
  intro n
  induction n with
  | zero => simpa using hstep0
  | succ n ih =>
      rw [Function.iterate_succ_apply']
      rw [ih]
      exact hstep1

/-! ### Claim C9 — singleton emission -/

/-- C9: compiling a routine's translation unit once per compiled target
emits exactly one dispatch table (produced only by the pass in which
`HWY_ONCE` holds, the static-target pass), while every pass emits its own
implementation in a per-target namespace, one per compiled target, all
pairwise distinct. -/
theorem c9_singleton_emission (b : Build) (r : String)
    (h : b.compiled b.staticTarget = true) :
    (compileTU b r).tables = [r] ∧
    (compileTU b r).impls.map Prod.fst = b.compiledList ∧
    (compileTU b r).impls.Nodup := by
  refine ⟨?_, ?_, ?_⟩
  · unfold compileTU hwyOnce passes
    simp only
    rw [filter_beq_of_nodup (compiledList_nodup b)
      (static_mem_compiledList b h)]
    rfl
  · unfold compileTU passes
    simp [List.map_map]
    exact List.map_id b.compiledList
  · unfold compileTU
    simp only
    apply List.Nodup.map
    · intro a c he
      exact congrArg Prod.fst he
    · exact compiledList_nodup b

/-- C9 witness: the x86 build emits exactly one table and four isolated
implementations for the routine named FloorLog2. -/
theorem c9_singleton_emission_witness :
    bX.compiled bX.staticTarget = true ∧
    ((compileTU bX "FloorLog2").tables = ["FloorLog2"] ∧
     (compileTU bX "FloorLog2").impls.map Prod.fst = bX.compiledList ∧
     (compileTU bX "FloorLog2").impls.Nodup) :=
  ⟨by decide, c9_singleton_emission bX "FloorLog2" (by decide)⟩

/-! ### Claim C10 — last slot never null -/

/-- C10: in every multi-target build the final (scalar) slot of the
exported table is a real function pointer, never null — when Scalar is
not compiled it holds the baseline (static-target) implementation — and a
dispatch that selects the last table index returns a value rather than
hitting the fatal null-slot path. -/
theorem c10_last_slot_not_null {α β : Type} (b : Build)
    (sup : Target → Bool) (impl : Target → α → β) (args : α)
    (h : b.singleTarget = false) :
    (∃ f, (exportTable b impl).getD (dynamicTargets.length + 1) .null =
      .fn f) ∧
    (b.compiled .SCALAR = false →
      (exportTable b impl).getD (dynamicTargets.length + 1) .null =
        .fn (impl b.staticTarget)) ∧
    (∃ y, (dynDispatchMulti b sup impl
      (.ready (dynamicTargets.length + 1)) args).1 = some y) := by
  have htab : (exportTable b impl).getD (dynamicTargets.length + 1) .null =
      chooseScalar b impl := by
    unfold exportTable
    rw [h]
    simp only [Bool.false_eq_true, if_false]
    rfl
  have hfn : ∃ f, chooseScalar b impl = .fn f := by
    unfold chooseScalar
    split
    · exact ⟨impl .SCALAR, rfl⟩
    · exact ⟨impl b.staticTarget, rfl⟩
  rcases hfn with ⟨f, hf⟩
  have htab' : (dispatchTableMulti b impl).getD (dynamicTargets.length + 1)
      .null = chooseScalar b impl := rfl
  refine ⟨⟨f, by rw [htab, hf]⟩, ?_, ?_⟩
  · intro hs
    rw [htab]
    unfold chooseScalar
    rw [hs]
    simp
  · have hne : (dispatchTableMulti b impl).getD
        (dynamicTargets.length + 1) .null ≠ .init := by
      rw [htab', hf]
      simp
    rw [dynDispatchMulti_ready b sup impl _ args hne, htab', hf]
    exact ⟨f args, rfl⟩

/-- C10 witness: in the x86 build (multi-target, scalar not compiled) the
last slot holds the SSE4 baseline implementation and dispatching through
it returns a value. -/
theorem c10_last_slot_not_null_witness :
    bX.singleTarget = false ∧
    ((∃ f, (exportTable bX implNat).getD (dynamicTargets.length + 1) .null =
       .fn f) ∧
     (bX.compiled .SCALAR = false →
       (exportTable bX implNat).getD (dynamicTargets.length + 1) .null =
         .fn (implNat bX.staticTarget)) ∧
     (∃ y, (dynDispatchMulti bX supX implNat
       (.ready (dynamicTargets.length + 1)) 5).1 = some y)) :=
  ⟨by decide, c10_last_slot_not_null bX supX implNat 5 (by decide)⟩

end Highway
